import Mathlib

/-!
Verification of the nbr repository (bootstrap scripts and plugin templates
for a chat-bot framework).

Shallow embedding of the three source files:
* `src/cli/templates/hello.py` — the example command handler.  Its input is
  the plain text extracted by the framework from the command argument
  (`args.extract_plain_text()`), and its output is the list of replies sent
  via `hello.finish` (which sends a message and stops the handler, so each
  branch sends exactly one reply).
* `src/cli/nbfile/bot.py` and `src/cli/templates/bot.py` — startup scripts
  that read `pyproject.toml`, run the adapter registration loop and then
  load plugins from the manifest.  The framework (`nonebot`) is a black box:
  the combined effect of `importlib.import_module(adapter["module_name"])`,
  the `.Adapter` attribute access and `driver.register_adapter` is modelled
  by an environment `Env` mapping a module name to success (the registered
  adapter) or failure (the exception message).  Script execution is modelled
  as a trace of events plus an optional uncaught error.
-/

namespace Nbr

/-! ## hello.py -/

/-- The body of `hello_handler` in `src/cli/templates/hello.py`.
`msg` is the extracted plain text; Python's `if msg:` tests non-emptiness.
The result is the list of replies sent (`hello.finish` sends one message and
raises `FinishedException`, so exactly one branch runs and sends one reply). -/
def hello_handler (msg : String) : List String :=
  if msg ≠ "" then ["Hello, " ++ msg ++ "!"] else ["Hello, World!"]

/-- A command matcher as produced by `on_command`: the set of trigger
commands (primary name plus aliases), priority, block flag, and the
registered handler. -/
structure Matcher where
  commands : List String
  priority : Nat
  block : Bool
  handler : String → List String

/-- The matcher `hello = on_command("hello", aliases set containing "hi", priority=10, block=True)`
with `hello_handler` registered via `@hello.handle()`. -/
def hello : Matcher :=
  { commands := ["hello", "hi"], priority := 10, block := true,
    handler := hello_handler }

/-- Invoking a matcher through a trigger phrase: if the trigger is one of the
matcher's commands, the registered handler runs on the extracted argument
text; otherwise the matcher does not fire. -/
def invoke (m : Matcher) (trigger : String) (args : String) : Option (List String) :=
  if trigger ∈ m.commands then some (m.handler args) else none

/-! ## Claims about hello.py -/

/-- Claim C3: with empty extracted trailing text the reply is exactly
"Hello, World!", and with extracted trailing text "Alice" the reply is
exactly "Hello, Alice!". -/
theorem c3_hello_world_alice :
    hello_handler "" = ["Hello, World!"] ∧
    hello_handler "Alice" = ["Hello, Alice!"] := by
  constructor <;> rfl

/-- Claim C5: for every extracted argument text, invoking the handler via
the alias trigger "hi" produces exactly the same result as invoking it via
the primary trigger "hello". -/
theorem c5_alias_same_reply (args : String) :
    invoke hello "hi" args = invoke hello "hello" args := by
  simp [invoke, hello]

/-- Claim C9 (counterexample): the reply "Hello, World!" does not occur only
for empty extracted text: the non-empty extracted text "World" also yields
exactly the reply "Hello, World!", so the "only if" direction of the claim
fails. -/
theorem c9_counterexample :
    hello_handler "World" = ["Hello, World!"] ∧ "World" ≠ "" := by
  constructor
  · rfl
  · decide

/-- Claim C9 (amended): if the extracted plain text is empty the reply is
"Hello, World!", and for every non-empty extracted plain text s — including
whitespace-only strings — the reply is exactly "Hello, " ++ s ++ "!".
(The original "if and only if" fails at s = "World".) -/
theorem c9_amended :
    (∀ msg : String, msg = "" → hello_handler msg = ["Hello, World!"]) ∧
    (∀ msg : String, msg ≠ "" → hello_handler msg = ["Hello, " ++ msg ++ "!"]) := by
  constructor
  · intro msg h
    subst h
    rfl
  · intro msg h
    simp [hello_handler, h]

/-- Witness for C9: the amended claim applied at the empty string and at a
whitespace-only string. -/
theorem c9_witness :
    hello_handler "" = ["Hello, World!"] ∧
    hello_handler " " = ["Hello, " ++ " " ++ "!"] :=
  ⟨c9_amended.1 "" rfl, c9_amended.2 " " (by decide)⟩

/-- Claim C10: the handler is deterministic (equal extracted texts give
equal reply lists) and sends exactly one reply per invocation. -/
theorem c10_deterministic_one_reply :
    (∀ m₁ m₂ : String, m₁ = m₂ → hello_handler m₁ = hello_handler m₂) ∧
    (∀ msg : String, (hello_handler msg).length = 1) := by
  constructor
  · intro m₁ m₂ h
    rw [h]
  · intro msg
    by_cases h : msg = "" <;> simp [hello_handler, h]

/-- Witness for C10: determinism and the one-reply count at a concrete
input. -/
theorem c10_witness :
    hello_handler "Alice" = hello_handler "Alice" ∧
    (hello_handler "Alice").length = 1 :=
  ⟨c10_deterministic_one_reply.1 "Alice" "Alice" rfl,
   c10_deterministic_one_reply.2 "Alice"⟩

/-! ## bot.py (both variants) -/

/-- One entry of the `[[tool.nonebot.adapters]]` list of `pyproject.toml`.
Both fields model TOML keys that may be absent: a missing key makes the
corresponding Python subscript raise `KeyError`. -/
structure AdapterDescriptor where
  name : Option String
  module_name : Option String
deriving DecidableEq

/-- Outcome of `importlib.import_module(m)` followed by the `.Adapter`
attribute access and `driver.register_adapter`: either the adapter is
registered (carrying an identifier for it) or some exception is raised
(carrying its message). -/
inductive ImportResult where
  | ok (adapter : String)
  | err (e : String)
deriving DecidableEq

/-- The black-box behavior of the import machinery and the driver, as a
function of the module name. -/
abbrev Env := String → ImportResult

/-- Resolving one descriptor inside the `try` block: `adapter["module_name"]`
raises `KeyError` when the key is absent (caught by the `except`), otherwise
the import/registration runs on the module name. -/
def resolveAdapter (env : Env) (d : AdapterDescriptor) : ImportResult :=
  match d.module_name with
  | none => .err "KeyError: module_name"
  | some m => env m

/-- `true` when the descriptor's module import and adapter registration
succeed. -/
def succeeds (env : Env) (d : AdapterDescriptor) : Bool :=
  match resolveAdapter env d with
  | .ok _ => true
  | .err _ => false

/-- Observable events of a script run. -/
inductive Event where
  | readManifest
  | registerAdapter (a : String)
  | logError (m : String)
  | loadBuiltinPlugins (ps : List String)
  | loadFromToml
deriving DecidableEq

/-- Result of the adapter registration loop: the events it performed, and
`some e` when an uncaught exception `e` escaped the loop. -/
structure LoopOut where
  events : List Event
  error : Option String
deriving DecidableEq

/-- The adapter registration loop of both `bot.py` variants.  On success the
adapter is registered; on failure the `except` block evaluates the f-string
`"Failed to register adapter {adapter['name']}: {e}"` — when the `name` key
is absent this raises an uncaught `KeyError`, otherwise the message is
logged and the loop continues. -/
def adapterLoop (env : Env) : List AdapterDescriptor → LoopOut
  | [] => { events := [], error := none }
  | d :: rest =>
    match resolveAdapter env d with
    | .ok a =>
      let o := adapterLoop env rest
      { events := .registerAdapter a :: o.events, error := o.error }
    | .err e =>
      match d.name with
      | none => { events := [], error := some "KeyError: name" }
      | some n =>
        let o := adapterLoop env rest
        { events := .logError ("Failed to register adapter " ++ n ++ ": " ++ e) :: o.events,
          error := o.error }

/-- The `[tool.nonebot]` table: either list key may be absent
(`builtin_plugins` is only used by the template variant). -/
structure ToolNonebot where
  adapters : Option (List AdapterDescriptor)
  builtin_plugins : Option (List String)
deriving DecidableEq

/-- The `[tool]` table, whose `nonebot` sub-table may be absent. -/
structure Tool where
  nonebot : Option ToolNonebot
deriving DecidableEq

/-- The parsed `pyproject.toml`, whose `tool` table may be absent. -/
structure Pyproject where
  tool : Option Tool
deriving DecidableEq

/-- The chained lookup `pyproject["tool"]["nonebot"]["adapters"]`, `none`
when any of the three keys is missing. -/
def adaptersTable (p : Pyproject) : Option (List AdapterDescriptor) :=
  match p.tool with
  | none => none
  | some t =>
    match t.nonebot with
    | none => none
    | some nb => nb.adapters

/-- Result of running a startup script: its events, `some e` when an
uncaught exception `e` terminated it, and the final value of the parsed
manifest binding (the scripts only subscript the parsed dict, so no
statement in the source assigns into it). -/
structure ScriptOut where
  events : List Event
  error : Option String
  pyprojectFinal : Pyproject
deriving DecidableEq

/-- `src/cli/nbfile/bot.py`: read the manifest, look up
`pyproject["tool"]["nonebot"]["adapters"]` (each missing key is an uncaught
`KeyError`), run the registration loop, then `nonebot.load_from_toml`. -/
def runNbfileBot (env : Env) (p : Pyproject) : ScriptOut :=
  match p.tool with
  | none => { events := [.readManifest], error := some "KeyError: tool", pyprojectFinal := p }
  | some t =>
    match t.nonebot with
    | none => { events := [.readManifest], error := some "KeyError: nonebot", pyprojectFinal := p }
    | some nb =>
      match nb.adapters with
      | none => { events := [.readManifest], error := some "KeyError: adapters", pyprojectFinal := p }
      | some ads =>
        let o := adapterLoop env ads
        match o.error with
        | some e => { events := .readManifest :: o.events, error := some e, pyprojectFinal := p }
        | none =>
          { events := .readManifest :: o.events ++ [.loadFromToml], error := none,
            pyprojectFinal := p }

/-- `src/cli/templates/bot.py`: like `runNbfileBot`, but after the loop it
calls `nonebot.load_builtin_plugins(*tool_nonebot["builtin_plugins"])`
(an uncaught `KeyError` when that key is absent) before
`nonebot.load_from_toml`. -/
def runTemplateBot (env : Env) (p : Pyproject) : ScriptOut :=
  match p.tool with
  | none => { events := [.readManifest], error := some "KeyError: tool", pyprojectFinal := p }
  | some t =>
    match t.nonebot with
    | none => { events := [.readManifest], error := some "KeyError: nonebot", pyprojectFinal := p }
    | some nb =>
      match nb.adapters with
      | none => { events := [.readManifest], error := some "KeyError: adapters", pyprojectFinal := p }
      | some ads =>
        let o := adapterLoop env ads
        match o.error with
        | some e => { events := .readManifest :: o.events, error := some e, pyprojectFinal := p }
        | none =>
          match nb.builtin_plugins with
          | none =>
            { events := .readManifest :: o.events, error := some "KeyError: builtin_plugins",
              pyprojectFinal := p }
          | some ps =>
            { events := .readManifest :: o.events ++ [.loadBuiltinPlugins ps, .loadFromToml],
              error := none, pyprojectFinal := p }

/-- Number of `driver.register_adapter` calls in a trace. -/
def countRegister : List Event → Nat
  | [] => 0
  | .registerAdapter _ :: evs => countRegister evs + 1
  | _ :: evs => countRegister evs

/-- Number of `logger.error` calls in a trace. -/
def countLog : List Event → Nat
  | [] => 0
  | .logError _ :: evs => countLog evs + 1
  | _ :: evs => countLog evs

/-- Number of manifest reads (`tomllib.load` on the opened manifest file)
in a trace. -/
def countRead : List Event → Nat
  | [] => 0
  | .readManifest :: evs => countRead evs + 1
  | _ :: evs => countRead evs

/-! ## Helper lemmas about traces and the loop -/

theorem countRegister_append (a b : List Event) :
    countRegister (a ++ b) = countRegister a + countRegister b := by
  induction a with
  | nil => simp [countRegister]
  | cons e evs ih =>
    cases e <;> simp [countRegister, ih] <;> omega

theorem countLog_append (a b : List Event) :
    countLog (a ++ b) = countLog a + countLog b := by
  induction a with
  | nil => simp [countLog]
  | cons e evs ih =>
    cases e <;> simp [countLog, ih] <;> omega

theorem countRead_append (a b : List Event) :
    countRead (a ++ b) = countRead a + countRead b := by
  induction a with
  | nil => simp [countRead]
  | cons e evs ih =>
    cases e <;> simp [countRead, ih] <;> omega

/-- The loop itself never reads the manifest again. -/
theorem adapterLoop_countRead (env : Env) (ads : List AdapterDescriptor) :
    countRead (adapterLoop env ads).events = 0 := by
  induction ads with
  | nil => rfl
  | cons d rest ih =>
    cases hres : resolveAdapter env d with
    | ok a => simp [adapterLoop, hres, countRead, ih]
    | err e =>
      cases hn : d.name with
      | none => simp [adapterLoop, hres, hn, countRead]
      | some n => simp [adapterLoop, hres, hn, countRead, ih]

/-- Functional specification of the registration loop when every failing
descriptor carries a `name` key: it finishes without an uncaught error,
registers exactly the successfully resolving descriptors, and logs one
failure for each of the others. -/
theorem adapterLoop_spec (env : Env) (ads : List AdapterDescriptor)
    (hname : ∀ d ∈ ads, succeeds env d = false → d.name.isSome = true) :
    (adapterLoop env ads).error = none ∧
    countRegister (adapterLoop env ads).events = (ads.filter (succeeds env)).length ∧
    countLog (adapterLoop env ads).events =
      ads.length - (ads.filter (succeeds env)).length := by
  induction ads with
  | nil => refine ⟨rfl, rfl, rfl⟩
  | cons d rest ih =>
    have hrest : ∀ d ∈ rest, succeeds env d = false → d.name.isSome = true := by
      intro x hx
      exact hname x (List.mem_cons_of_mem d hx)
    obtain ⟨ih₁, ih₂, ih₃⟩ := ih hrest
    have hle : (rest.filter (succeeds env)).length ≤ rest.length :=
      List.length_filter_le _ _
    cases hres : resolveAdapter env d with
    | ok a =>
      have hs : succeeds env d = true := by simp [succeeds, hres]
      refine ⟨?_, ?_, ?_⟩
      · simpa [adapterLoop, hres] using ih₁
      · simp [adapterLoop, hres, countRegister, List.filter_cons, hs, ih₂]
      · simp only [adapterLoop, hres, countLog, List.filter_cons, hs, if_pos,
          List.length_cons]
        omega
    | err e =>
      have hs : succeeds env d = false := by simp [succeeds, hres]
      have hn : d.name.isSome = true := hname d (List.mem_cons_self d rest) hs
      obtain ⟨n, hn'⟩ := Option.isSome_iff_exists.mp hn
      refine ⟨?_, ?_, ?_⟩
      · simpa [adapterLoop, hres, hn'] using ih₁
      · simp [adapterLoop, hres, hn', countRegister, List.filter_cons, hs, ih₂]
      · simp only [adapterLoop, hres, hn', countLog, List.filter_cons, hs,
          Bool.false_eq_true, if_false, List.length_cons]
        omega

/-! ## Concrete fixtures used by witnesses and counterexamples -/

/-- An import machinery in which every module import succeeds. -/
def envOk : Env := fun _ => ImportResult.ok "A"

/-- An import machinery in which every module import fails. -/
def envFail : Env := fun _ => ImportResult.err "ModuleNotFoundError"

/-- A manifest with no `[tool]` table. -/
def pNoTool : Pyproject := { tool := none }

/-- A descriptor with a module name but no `name` key. -/
def dNoName : AdapterDescriptor := { name := none, module_name := some "adapter.mod" }

/-- A manifest whose single adapter descriptor lacks the `name` key. -/
def pNoName : Pyproject :=
  { tool := some { nonebot := some { adapters := some [dNoName], builtin_plugins := none } } }

/-- A manifest with an empty adapter list and a builtin-plugin list. -/
def pEmptyAdapters : Pyproject :=
  { tool := some
      { nonebot := some { adapters := some [], builtin_plugins := some ["echo"] } } }

/-- An import machinery in which exactly the module `"good.mod"` imports
and registers successfully. -/
def envMixed : Env := fun m =>
  if m = "good.mod" then ImportResult.ok "Good" else ImportResult.err "ImportError"

/-- Two named descriptors, the first resolving under `envMixed`, the second
not. -/
def twoAdapters : List AdapterDescriptor :=
  [{ name := some "Good", module_name := some "good.mod" },
   { name := some "Bad", module_name := some "bad.mod" }]

/-- A manifest carrying `twoAdapters` and a builtin-plugin list. -/
def pTwoAdapters : Pyproject :=
  { tool := some
      { nonebot := some { adapters := some twoAdapters, builtin_plugins := some ["echo"] } } }

/-! ## Claims about bot.py -/

/-- Claim C2: for a descriptor carrying a `name` whose module import or
adapter registration fails, the exception is caught, exactly one error
message built from the descriptor's display name and the exception is
logged, and the loop then behaves exactly as it does on the remaining
descriptors — registration is non-fatal and best-effort for such a
descriptor. -/
theorem c2_failure_logged_loop_continues (env : Env) (d : AdapterDescriptor)
    (rest : List AdapterDescriptor) (n e : String)
    (hn : d.name = some n) (he : resolveAdapter env d = ImportResult.err e) :
    adapterLoop env (d :: rest) =
      { events := Event.logError ("Failed to register adapter " ++ n ++ ": " ++ e) ::
          (adapterLoop env rest).events,
        error := (adapterLoop env rest).error } := by
  simp [adapterLoop, he, hn]

/-- Witness for C2 at a concrete failing descriptor. -/
theorem c2_witness :
    adapterLoop (fun _ => ImportResult.err "boom")
        [{ name := some "OneBot", module_name := some "adapter.mod" }] =
      { events := [Event.logError ("Failed to register adapter " ++ "OneBot" ++ ": " ++ "boom")],
        error := none } :=
  c2_failure_logged_loop_continues (fun _ => ImportResult.err "boom")
    { name := some "OneBot", module_name := some "adapter.mod" } [] "OneBot" "boom" rfl rfl

/-- Claim C4: when the required adapter table is missing from the manifest
(any of the keys `tool`, `nonebot`, `adapters` is absent), both scripts fail
with an uncaught error and perform zero driver adapter registrations. -/
theorem c4_missing_table_no_registration (env : Env) (p : Pyproject)
    (h : adaptersTable p = none) :
    (runNbfileBot env p).error ≠ none ∧
    countRegister (runNbfileBot env p).events = 0 ∧
    (runTemplateBot env p).error ≠ none ∧
    countRegister (runTemplateBot env p).events = 0 := by
  cases hp : p.tool with
  | none => simp [runNbfileBot, runTemplateBot, hp, countRegister]
  | some t =>
    cases hnb : t.nonebot with
    | none => simp [runNbfileBot, runTemplateBot, hp, hnb, countRegister]
    | some nb =>
      cases had : nb.adapters with
      | none => simp [runNbfileBot, runTemplateBot, hp, hnb, had, countRegister]
      | some ads =>
        exfalso
        simp [adaptersTable, hp, hnb, had] at h

/-- Witness for C4: a manifest with no `tool` table. -/
theorem c4_witness :
    (runNbfileBot envOk pNoTool).error ≠ none ∧
    countRegister (runNbfileBot envOk pNoTool).events = 0 ∧
    (runTemplateBot envOk pNoTool).error ≠ none ∧
    countRegister (runTemplateBot envOk pNoTool).events = 0 :=
  c4_missing_table_no_registration envOk pNoTool rfl

/-- Claim C6: with an empty adapter list the loop performs zero
registrations and raises no error, and execution continues past the loop to
the plugin-loading call — in the nbfile script unconditionally, in the
template script once its `builtin_plugins` list is present. -/
theorem c6_empty_adapters (env : Env) (p : Pyproject) (t : Tool) (nb : ToolNonebot)
    (h1 : p.tool = some t) (h2 : t.nonebot = some nb) (h3 : nb.adapters = some []) :
    ((runNbfileBot env p).error = none ∧
      countRegister (runNbfileBot env p).events = 0 ∧
      Event.loadFromToml ∈ (runNbfileBot env p).events) ∧
    (∀ ps, nb.builtin_plugins = some ps →
      (runTemplateBot env p).error = none ∧
      countRegister (runTemplateBot env p).events = 0 ∧
      Event.loadFromToml ∈ (runTemplateBot env p).events) := by
  constructor
  · simp [runNbfileBot, h1, h2, h3, adapterLoop, countRegister]
  · intro ps hps
    simp [runTemplateBot, h1, h2, h3, hps, adapterLoop, countRegister]

/-- Witness for C6 at a concrete manifest with an empty adapter list. -/
theorem c6_witness :
    ((runNbfileBot envOk pEmptyAdapters).error = none ∧
      countRegister (runNbfileBot envOk pEmptyAdapters).events = 0 ∧
      Event.loadFromToml ∈ (runNbfileBot envOk pEmptyAdapters).events) ∧
    ((runTemplateBot envOk pEmptyAdapters).error = none ∧
      countRegister (runTemplateBot envOk pEmptyAdapters).events = 0 ∧
      Event.loadFromToml ∈ (runTemplateBot envOk pEmptyAdapters).events) :=
  ⟨(c6_empty_adapters envOk pEmptyAdapters _ _ rfl rfl rfl).1,
   (c6_empty_adapters envOk pEmptyAdapters _ _ rfl rfl rfl).2 ["echo"] rfl⟩

/-- Claim C7: in every run of either script the manifest is read exactly
once, and the parsed manifest data is never mutated (the final value of the
manifest binding equals the parsed input). -/
theorem c7_manifest_read_once_not_mutated (env : Env) (p : Pyproject) :
    countRead (runNbfileBot env p).events = 1 ∧
    (runNbfileBot env p).pyprojectFinal = p ∧
    countRead (runTemplateBot env p).events = 1 ∧
    (runTemplateBot env p).pyprojectFinal = p := by
  cases hp : p.tool with
  | none => simp [runNbfileBot, runTemplateBot, hp, countRead]
  | some t =>
    cases hnb : t.nonebot with
    | none => simp [runNbfileBot, runTemplateBot, hp, hnb, countRead]
    | some nb =>
      cases had : nb.adapters with
      | none => simp [runNbfileBot, runTemplateBot, hp, hnb, had, countRead]
      | some ads =>
        cases ho : (adapterLoop env ads).error with
        | some e =>
          simp [runNbfileBot, runTemplateBot, hp, hnb, had, ho, countRead,
            adapterLoop_countRead]
        | none =>
          cases hbp : nb.builtin_plugins with
          | none =>
            simp [runNbfileBot, runTemplateBot, hp, hnb, had, ho, hbp, countRead,
              countRead_append, adapterLoop_countRead]
          | some ps =>
            simp [runNbfileBot, runTemplateBot, hp, hnb, had, ho, hbp, countRead,
              countRead_append, adapterLoop_countRead]

/-- Claim C1 (counterexample): a manifest whose single adapter descriptor
(N = 1) fails to resolve (M = 0) but lacks the `name` key logs 0 failures
instead of N − M = 1 and the script aborts before the plugin-loading call,
so the claim does not hold for every manifest. -/
theorem c1_counterexample :
    adaptersTable pNoName = some [dNoName] ∧
    ([dNoName].filter (succeeds envFail)).length = 0 ∧
    countLog (runNbfileBot envFail pNoName).events = 0 ∧
    (runNbfileBot envFail pNoName).error = some "KeyError: name" ∧
    Event.loadFromToml ∉ (runNbfileBot envFail pNoName).events := by
  refine ⟨rfl, rfl, rfl, rfl, ?_⟩
  decide

/-- Claim C1 (amended): for a manifest whose adapter list has N descriptors
of which M resolve and register successfully, provided every descriptor that
fails to resolve carries a `name` key, the registration loop of both script
variants registers exactly M adapters and logs exactly N − M failures, and
execution continues to completion, reaching the manifest plugin-loading
call, regardless of M — unconditionally in the nbfile script, and in the
template script provided its `builtin_plugins` list is present.  (The
original claim, quantified over all manifests, fails when a failing
descriptor lacks the `name` key — see the counterexample.) -/
theorem c1_amended_registration_counts (env : Env) (p : Pyproject) (t : Tool)
    (nb : ToolNonebot) (ads : List AdapterDescriptor)
    (h1 : p.tool = some t) (h2 : t.nonebot = some nb) (h3 : nb.adapters = some ads)
    (hname : ∀ d ∈ ads, succeeds env d = false → d.name.isSome = true) :
    (countRegister (runNbfileBot env p).events = (ads.filter (succeeds env)).length ∧
      countLog (runNbfileBot env p).events =
        ads.length - (ads.filter (succeeds env)).length ∧
      (runNbfileBot env p).error = none ∧
      Event.loadFromToml ∈ (runNbfileBot env p).events) ∧
    (countRegister (runTemplateBot env p).events = (ads.filter (succeeds env)).length ∧
      countLog (runTemplateBot env p).events =
        ads.length - (ads.filter (succeeds env)).length ∧
      (∀ ps, nb.builtin_plugins = some ps →
        (runTemplateBot env p).error = none ∧
        Event.loadFromToml ∈ (runTemplateBot env p).events)) := by
  obtain ⟨e0, r0, l0⟩ := adapterLoop_spec env ads hname
  refine ⟨?_, ?_, ?_, ?_⟩
  · refine ⟨?_, ?_, ?_, ?_⟩ <;>
      simp [runNbfileBot, h1, h2, h3, e0, countRegister, countLog,
        countRegister_append, countLog_append, r0, l0]
  · cases hbp : nb.builtin_plugins <;>
      simp [runTemplateBot, h1, h2, h3, e0, hbp, countRegister,
        countRegister_append, r0]
  · cases hbp : nb.builtin_plugins <;>
      simp [runTemplateBot, h1, h2, h3, e0, hbp, countLog, countLog_append, l0]
  · intro ps hps
    constructor <;> simp [runTemplateBot, h1, h2, h3, e0, hps]

/-- Witness for C1: the amended claim at a concrete manifest with two
descriptors, one succeeding and one failing with a `name` key (N = 2,
M = 1), and a builtin-plugin list for the template variant. -/
theorem c1_witness :
    countRegister (runNbfileBot envMixed pTwoAdapters).events =
      (twoAdapters.filter (succeeds envMixed)).length ∧
    countLog (runNbfileBot envMixed pTwoAdapters).events =
      twoAdapters.length - (twoAdapters.filter (succeeds envMixed)).length ∧
    (runNbfileBot envMixed pTwoAdapters).error = none ∧
    Event.loadFromToml ∈ (runNbfileBot envMixed pTwoAdapters).events ∧
    countRegister (runTemplateBot envMixed pTwoAdapters).events =
      (twoAdapters.filter (succeeds envMixed)).length ∧
    countLog (runTemplateBot envMixed pTwoAdapters).events =
      twoAdapters.length - (twoAdapters.filter (succeeds envMixed)).length ∧
    (runTemplateBot envMixed pTwoAdapters).error = none ∧
    Event.loadFromToml ∈ (runTemplateBot envMixed pTwoAdapters).events := by
  have h := c1_amended_registration_counts envMixed pTwoAdapters _ _ twoAdapters
    rfl rfl rfl (by decide)
  exact ⟨h.1.1, h.1.2.1, h.1.2.2.1, h.1.2.2.2, h.2.1, h.2.2.1,
    (h.2.2.2 ["echo"] rfl).1, (h.2.2.2 ["echo"] rfl).2⟩

/-- Claim C8: a descriptor whose resolution fails and which lacks the
`name` key makes the f-string in the `except` block raise an uncaught
`KeyError`: the loop aborts with no further events, and both scripts
terminate with that error before the plugin-loading call, instead of
continuing to the next descriptor. -/
theorem c8_missing_name_aborts (env : Env) (d : AdapterDescriptor)
    (rest : List AdapterDescriptor) (e : String) (p : Pyproject) (t : Tool)
    (nb : ToolNonebot)
    (hn : d.name = none) (he : resolveAdapter env d = ImportResult.err e)
    (h1 : p.tool = some t) (h2 : t.nonebot = some nb)
    (h3 : nb.adapters = some (d :: rest)) :
    adapterLoop env (d :: rest) = { events := [], error := some "KeyError: name" } ∧
    (runNbfileBot env p).error = some "KeyError: name" ∧
    Event.loadFromToml ∉ (runNbfileBot env p).events ∧
    (runTemplateBot env p).error = some "KeyError: name" ∧
    Event.loadFromToml ∉ (runTemplateBot env p).events := by
  have hloop : adapterLoop env (d :: rest) =
      { events := [], error := some "KeyError: name" } := by
    simp [adapterLoop, he, hn]
  refine ⟨hloop, ?_, ?_, ?_, ?_⟩ <;>
    simp [runNbfileBot, runTemplateBot, h1, h2, h3, hloop]

/-- Witness for C8 at the concrete nameless failing descriptor. -/
theorem c8_witness :
    adapterLoop envFail [dNoName] = { events := [], error := some "KeyError: name" } ∧
    (runNbfileBot envFail pNoName).error = some "KeyError: name" ∧
    Event.loadFromToml ∉ (runNbfileBot envFail pNoName).events ∧
    (runTemplateBot envFail pNoName).error = some "KeyError: name" ∧
    Event.loadFromToml ∉ (runTemplateBot envFail pNoName).events :=
  c8_missing_name_aborts envFail dNoName [] "ModuleNotFoundError" pNoName _ _
    rfl rfl rfl rfl rfl

end Nbr
